import Mathlib

/-!
Verification of the restaurant search / classification pipeline of the
FYP2026 mobile application.

The definitions below are a shallow embedding of the TypeScript source:

* the client-side restaurant library (`detectCuisines`, `calculateHealthScore`,
  `processRestaurant`, `searchRestaurants` and the fixed lookup tables);
* the backend gateway's `POST /api/restaurants/search` handler (which performs
  coordinate validation before calling the places provider);
* the backend's `GET /api/openrice/search/:name` enrichment handler.

JavaScript numbers that the pipeline manipulates are modelled as `Int`
(all the values the claims touch are integral); JavaScript's falsy-coalescing
operator `x || d` is modelled by explicit helpers (`orSD`, `orND`, ...) that
treat the empty string and the number 0 as falsy, exactly as JavaScript does.
The single outbound HTTP call of each operation is made explicit: the
operation takes the provider's response as an argument and returns, next to
its result, the request it sent and the number of outbound calls it made.
-/

/-! ## JavaScript string and truthiness helpers -/

/-- JavaScript `String.prototype.includes`: `pat` occurs as a contiguous
substring of `s`. Implemented structurally so that concrete instances
evaluate by `decide`. -/
def strStarts : List Char → List Char → Bool
  | [], _ => true
  | _ :: _, [] => false
  | a :: as, b :: bs => a == b && strStarts as bs

/-- Substring occurrence test on character lists. -/
def strInfixOf (pat : List Char) : List Char → Bool
  | [] => strStarts pat []
  | l@(_ :: bs) => strStarts pat l || strInfixOf pat bs

/-- JavaScript `s.includes(pat)`. -/
def strIncludes (s pat : String) : Bool :=
  strInfixOf pat.data s.data

/-- JavaScript `String.prototype.toLowerCase` (ASCII range, which is all the
keyword tables use). -/
def jsToLower (s : String) : String :=
  ⟨s.data.map Char.toLower⟩

/-- JavaScript `String.prototype.trim`: strip leading and trailing
whitespace. -/
def jsTrim (s : String) : String :=
  ⟨((s.data.dropWhile Char.isWhitespace).reverse.dropWhile Char.isWhitespace).reverse⟩

/-- JavaScript `a || b` for optional strings (the empty string is falsy). -/
def orS (a b : Option String) : Option String :=
  match a with
  | some s => if s = "" then b else some s
  | none => b

/-- JavaScript `a || d` producing a string, `d` a string literal default. -/
def orSD (a : Option String) (d : String) : String :=
  match a with
  | some s => if s = "" then d else s
  | none => d

/-- JavaScript `a || d` for numbers (`0` is falsy). -/
def orND (a : Option Int) (d : Int) : Int :=
  match a with
  | some n => if n = 0 then d else n
  | none => d

/-- JavaScript `a || b` for optional numbers (`0` is falsy). -/
def orN (a b : Option Int) : Option Int :=
  match a with
  | some n => if n = 0 then b else some n
  | none => b

/-! ## Fixed lookup tables (source: restaurant library) -/

/-- Cuisine category mappings for the Geoapify API. -/
def CUISINE_CATEGORIES : List (String × String) :=
  [("all", "catering.restaurant"),
   ("chinese", "catering.restaurant.chinese"),
   ("japanese", "catering.restaurant.japanese"),
   ("korean", "catering.restaurant.korean"),
   ("thai", "catering.restaurant.thai"),
   ("indian", "catering.restaurant.indian"),
   ("italian", "catering.restaurant.italian"),
   ("french", "catering.restaurant.french"),
   ("american", "catering.restaurant.american"),
   ("mexican", "catering.restaurant.mexican"),
   ("seafood", "catering.restaurant.seafood"),
   ("steakhouse", "catering.restaurant.steak_house"),
   ("vegetarian", "catering.restaurant.vegetarian"),
   ("vegan", "catering.restaurant.vegan"),
   ("fast_food", "catering.fast_food")]

/-- Cuisine health scores (0-100). -/
def CUISINE_HEALTH_SCORES : List (String × Nat) :=
  [("vegan", 85),
   ("vegetarian", 80),
   ("healthy", 85),
   ("organic", 80),
   ("japanese", 75),
   ("mediterranean", 75),
   ("vietnamese", 70),
   ("thai", 65),
   ("korean", 65),
   ("indian", 60),
   ("chinese", 60),
   ("seafood", 70),
   ("italian", 55),
   ("french", 55),
   ("mexican", 50),
   ("american", 45),
   ("steakhouse", 45),
   ("fast_food", 25),
   ("general", 50)]

/-- Cuisine keywords for detection. -/
def CUISINE_KEYWORDS : List (String × List String) :=
  [("chinese", ["chinese", "cantonese", "sichuan", "dim sum", "noodle", "dumpling", "wok"]),
   ("japanese", ["japanese", "sushi", "ramen", "izakaya", "tempura", "udon", "yakitori"]),
   ("korean", ["korean", "bbq", "kimchi", "bibimbap", "korean_bbq"]),
   ("thai", ["thai", "pad thai", "curry", "tom yum"]),
   ("vietnamese", ["vietnamese", "pho", "banh mi", "spring roll"]),
   ("indian", ["indian", "curry", "tandoori", "masala", "biryani", "naan"]),
   ("italian", ["italian", "pizza", "pasta", "risotto", "trattoria"]),
   ("french", ["french", "bistro", "brasserie", "patisserie"]),
   ("american", ["american", "burger", "bbq", "grill", "diner"]),
   ("mexican", ["mexican", "taco", "burrito", "tex-mex", "quesadilla"]),
   ("mediterranean", ["mediterranean", "greek", "turkish", "lebanese", "falafel", "hummus"]),
   ("vegetarian", ["vegetarian", "veggie"]),
   ("vegan", ["vegan", "plant-based", "plant based"]),
   ("seafood", ["seafood", "fish", "oyster", "lobster", "crab"]),
   ("steakhouse", ["steakhouse", "steak", "chophouse"]),
   ("fast_food", ["fast food", "quick service", "takeaway", "take-away"]),
   ("healthy", ["healthy", "salad", "bowl", "organic", "fresh", "light"])]

/-! ## Cuisine classifier -/

/-- The lower-cased search text `[...categories, name].join(" ").toLowerCase()`
that `detectCuisines` scans for keywords. -/
def searchTextOf (categories : List String) (name : String) : String :=
  jsToLower (String.intercalate " " (categories ++ [name]))

/-- Detect cuisine types from categories and name (`detectCuisines`). -/
def detectCuisines (categories : List String) (name : String) : List String :=
  let searchText := searchTextOf categories name
  let detected := CUISINE_KEYWORDS.filterMap fun p =>
    if p.2.any (fun keyword => strIncludes searchText keyword) then some p.1 else none
  if detected.length > 0 then detected else ["general"]

/-- Calculate health score based on cuisine (`calculateHealthScore`).
The truthiness test `if (CUISINE_HEALTH_SCORES[cuisine])` admits a table hit
only when the stored score is nonzero. `Math.max(...scores)` is the fold by
`Nat.max` over the nonempty score list. -/
def calculateHealthScore (cuisines categories : List String) : Nat :=
  let scores := cuisines.filterMap fun cuisine =>
    match CUISINE_HEALTH_SCORES.lookup cuisine with
    | some v => if v = 0 then none else some v
    | none => none
  let categoriesText := jsToLower (String.intercalate " " categories)
  let scores' :=
    if ["healthy", "organic", "vegan", "vegetarian"].any
        (fun word => strIncludes categoriesText word) then
      scores ++ [80]
    else scores
  match scores' with
  | [] => 50
  | h :: t => t.foldl Nat.max h

/-- The health-score computation as the specification words it: the candidate
pool consists of the fixed table entry of every matched cuisine, plus the
value 80 when a healthy-signal keyword occurs in the lower-cased category
text; the score is the maximum of the pool, or 50 when the pool is empty. -/
def specHealthScore (cuisines categories : List String) : Nat :=
  let pool := cuisines.filterMap fun cuisine => CUISINE_HEALTH_SCORES.lookup cuisine
  let categoriesText := jsToLower (String.intercalate " " categories)
  let pool' :=
    if ["healthy", "organic", "vegan", "vegetarian"].any
        (fun word => strIncludes categoriesText word) then
      pool ++ [80]
    else pool
  match pool' with
  | [] => 50
  | h :: t => t.foldl Nat.max h

/-! ## Provider payload and restaurant records -/

/-- The fields of `feature.properties.datasource?.raw` that
`processRestaurant` reads (`{}` when `datasource` or `raw` is absent). -/
structure RawData where
  phone : Option String := none
  website : Option String := none
  email : Option String := none
  opening_hours : Option String := none
  stars : Option Int := none
  rating : Option Int := none
  review_count : Option Int := none
  price_level : Option Nat := none

/-- The fields of `feature.properties` that the pipeline reads. `osm_id`
models `props.osm_id?.toString()`; `contact_phone`/`contact_email` model
`props.contact?.phone` / `props.contact?.email`. -/
structure FeatureProps where
  name : Option String := none
  place_id : Option String := none
  osm_id : Option String := none
  categories : Option (List String) := none
  distance : Option Int := none
  address_line1 : Option String := none
  address_line2 : Option String := none
  city : Option String := none
  district : Option String := none
  postcode : Option String := none
  country : Option String := none
  website : Option String := none
  contact_phone : Option String := none
  contact_email : Option String := none
  datasource_raw : Option RawData := none

/-- One GeoJSON feature of the provider response: `lon` and `lat` are
`geometry.coordinates[0]` and `geometry.coordinates[1]`. -/
structure Feature where
  properties : FeatureProps := {}
  lon : Int := 0
  lat : Int := 0

structure RestaurantLocation where
  latitude : Int
  longitude : Int
  address_line1 : String
  address_line2 : String
  city : Option String
  district : Option String
  postcode : Option String
  country : Option String

structure RestaurantContact where
  phone : Option String
  website : Option String
  email : Option String

structure OperatingHours where
  is_open_now : Bool
  hours_today : Option String

structure HealthTags where
  has_healthy_options : Bool
  has_vegetarian : Bool
  has_vegan : Bool
  cuisine_health_score : Nat

structure Restaurant where
  id : String
  name : String
  location : RestaurantLocation
  distance_meters : Int
  distance_km : String
  categories : List String
  cuisine_types : List String
  contact : RestaurantContact
  operating_hours : OperatingHours
  health_tags : HealthTags
  rating : Option Int
  review_count : Option Int
  place_id : Option String
  osm_id : Option String
  price_level : Option String

/-- Rendering of `((d || 0) / 1000).toFixed(2)` for an integral distance of
`d` meters: kilometers with two decimals, rounding half away from zero. -/
def toFixed2Km (d : Int) : String :=
  let sign := if d < 0 then "-" else ""
  let h := (d.natAbs + 5) / 10
  let frac := h % 100
  sign ++ toString (h / 100) ++ "." ++
    (if frac < 10 then "0" ++ toString frac else toString frac)

/-- Process a single restaurant from the Geoapify response
(`processRestaurant`). -/
def processRestaurant (feature : Feature) : Restaurant :=
  let props := feature.properties
  let categories := props.categories.getD []
  let name := orSD props.name "Unknown Restaurant"
  let cuisines := detectCuisines categories name
  let healthScore := calculateHealthScore cuisines categories
  let raw := props.datasource_raw.getD {}
  { id := (orS (orS props.place_id props.osm_id)
      (some (toString feature.lon ++ "-" ++ toString feature.lat))).getD ""
    name := name
    location :=
      { latitude := feature.lat
        longitude := feature.lon
        address_line1 := orSD props.address_line1 "Unknown"
        address_line2 := orSD props.address_line2 ""
        city := props.city
        district := props.district
        postcode := props.postcode
        country := props.country }
    distance_meters := orND props.distance 0
    distance_km := toFixed2Km (orND props.distance 0)
    categories := categories
    cuisine_types := cuisines
    contact :=
      { phone := orS raw.phone props.contact_phone
        website := orS raw.website props.website
        email := orS raw.email props.contact_email }
    operating_hours :=
      { is_open_now := false
        hours_today := raw.opening_hours }
    health_tags :=
      { has_healthy_options :=
          categories.any fun c => strIncludes c "healthy" || strIncludes c "salad"
        has_vegetarian := categories.any fun c => strIncludes c "vegetarian"
        has_vegan := categories.any fun c => strIncludes c "vegan"
        cuisine_health_score := healthScore }
    rating := orN (orN raw.stars raw.rating) none
    review_count := orN raw.review_count none
    place_id := props.place_id
    osm_id := props.osm_id
    price_level :=
      match raw.price_level with
      | some n => if n = 0 then none else some (String.mk (List.replicate n '$'))
      | none => none }

/-! ## Places search (client-side `searchRestaurants`) -/

/-- The provider's reply to the single `fetch` of a search: HTTP `ok` flag and
status, and the parsed body's `features` array (`none` models a body without
a `features` field, which the code replaces by `[]`). -/
structure ProviderResponse where
  ok : Bool
  status : Nat
  features : Option (List Feature) := none

/-- The query parameters of the one outbound `GET {base}/v2/places` request
(before URL stringification). -/
structure PlacesRequest where
  categories : String
  filterLon : Int
  filterLat : Int
  filterRadius : Int
  biasLon : Int
  biasLat : Int
  limit : Int

structure SearchResult where
  success : Bool
  user_location : Int × Int
  search_radius_meters : Int
  total_results : Nat
  restaurants : List Restaurant
  generated_at : String
  error_message : Option String := none

/-- A search invocation's observable outcome: the returned `SearchResult`,
the provider request it built, and how many outbound provider calls it made. -/
structure SearchOutcome where
  result : SearchResult
  request : PlacesRequest
  calls : Nat

/-- The category token `CUISINE_CATEGORIES[cuisineFilter] || CUISINE_CATEGORIES.all`
(every table value is a nonempty, hence truthy, string, so JavaScript's `||`
coincides with `Option.or` here). -/
def categoryFor (cuisineFilter : String) : String :=
  ((CUISINE_CATEGORIES.lookup cuisineFilter).or (CUISINE_CATEGORIES.lookup "all")).getD ""

/-- Sort key of the comparator `(a.properties.distance || 0) - (b.properties.distance || 0)`. -/
def distKey (f : Feature) : Int :=
  orND f.properties.distance 0

/-- The comparator's ordering relation on features. -/
def featureLE (a b : Feature) : Prop :=
  distKey a ≤ distKey b

instance : DecidableRel featureLE :=
  fun a b => (inferInstance : Decidable (distKey a ≤ distKey b))

instance : IsTotal Feature featureLE :=
  ⟨fun a b => Int.le_total (distKey a) (distKey b)⟩

instance : IsTrans Feature featureLE :=
  ⟨fun _ _ _ => Int.le_trans⟩

/-- The `features.sort(...)` call: ECMAScript's `Array.prototype.sort` is
required to be stable and (for this consistent comparator) to produce a list
sorted by the comparator; the stable sorted permutation of a list is unique,
so insertion sort by the comparator's key is the faithful model. -/
def sortByDistance (fs : List Feature) : List Feature :=
  List.insertionSort featureLE fs

/-- The client-side `searchRestaurants`. Parameters mirror the source
(`radius = 2000`, `limit = 30`, `cuisineFilter = "all"` are the source's
defaults); `now` stands for `new Date().toISOString()`; `resp` is what the
one outbound provider call returned. A non-`ok` response makes the code throw
`Geoapify API error: {status}`, which the surrounding `catch` converts into
the failure result — nothing escapes to the caller. -/
def searchRestaurants (latitude longitude : Int) (radius : Int := 2000)
    (limit : Int := 30) (cuisineFilter : String := "all") (now : String := "")
    (resp : ProviderResponse := { ok := true, status := 200 }) : SearchOutcome :=
  let category := categoryFor cuisineFilter
  let apiLimit := min limit 50
  let request : PlacesRequest :=
    { categories := category
      filterLon := longitude
      filterLat := latitude
      filterRadius := radius
      biasLon := longitude
      biasLat := latitude
      limit := apiLimit }
  if resp.ok then
    let features := resp.features.getD []
    let sorted := sortByDistance features
    let restaurants := sorted.map processRestaurant
    { result :=
        { success := true
          user_location := (latitude, longitude)
          search_radius_meters := radius
          total_results := restaurants.length
          restaurants := restaurants
          generated_at := now }
      request := request
      calls := 1 }
  else
    { result :=
        { success := false
          user_location := (latitude, longitude)
          search_radius_meters := radius
          total_results := 0
          restaurants := []
          generated_at := now
          error_message := some ("Geoapify API error: " ++ toString resp.status) }
      request := request
      calls := 1 }

/-! ## Backend gateway `POST /api/restaurants/search` -/

/-- The request body after destructuring: `none` for `latitude`/`longitude`
models an absent or non-number field (the `typeof` check); the remaining
fields carry the source's destructuring defaults when absent. -/
structure GatewayBody where
  latitude : Option Int := none
  longitude : Option Int := none
  radius : Option Int := none
  limit : Option Int := none
  cuisine_filter : Option String := none

/-- Observable outcome of the gateway search handler: HTTP status, the JSON
envelope fields the claims speak about, and the number of outbound provider
calls made. -/
structure GatewayOutcome where
  status : Nat
  success : Bool
  error_message : Option String
  user_location : Option (Int × Int)
  search_radius_meters : Option Int
  total_results : Nat
  restaurants : List Restaurant
  generated_at : Option String
  calls : Nat

/-- The gateway's `POST /api/restaurants/search` handler. Validation happens
before the provider request is built, so the three 400 paths make no outbound
call; a non-`ok` provider response throws and is converted to a 500 envelope
by the handler's `catch`. -/
def restaurantsSearchHandler (body : GatewayBody) (now : String)
    (resp : ProviderResponse) : GatewayOutcome :=
  match body.latitude, body.longitude with
  | none, _ =>
    { status := 400, success := false
      error_message := some "latitude and longitude are required as numbers"
      user_location := none, search_radius_meters := none
      total_results := 0, restaurants := [], generated_at := none, calls := 0 }
  | some _, none =>
    { status := 400, success := false
      error_message := some "latitude and longitude are required as numbers"
      user_location := none, search_radius_meters := none
      total_results := 0, restaurants := [], generated_at := none, calls := 0 }
  | some latitude, some longitude =>
    if latitude < -90 ∨ latitude > 90 then
      { status := 400, success := false
        error_message := some "Invalid latitude: must be between -90 and 90"
        user_location := none, search_radius_meters := none
        total_results := 0, restaurants := [], generated_at := none, calls := 0 }
    else if longitude < -180 ∨ longitude > 180 then
      { status := 400, success := false
        error_message := some "Invalid longitude: must be between -180 and 180"
        user_location := none, search_radius_meters := none
        total_results := 0, restaurants := [], generated_at := none, calls := 0 }
    else
      let radius := body.radius.getD 2000
      let filt := body.cuisine_filter.getD "all"
      let _category := categoryFor (jsToLower filt)
      let _limit := min (body.limit.getD 30) 50
      if resp.ok then
        let features := resp.features.getD []
        let restaurants := (sortByDistance features).map processRestaurant
        { status := 200, success := true
          error_message := none
          user_location := some (latitude, longitude)
          search_radius_meters := some radius
          total_results := restaurants.length
          restaurants := restaurants
          generated_at := some now
          calls := 1 }
      else
        { status := 500, success := false
          error_message := some ("Geoapify API error: " ++ toString resp.status)
          user_location := none, search_radius_meters := none
          total_results := 0, restaurants := [], generated_at := none, calls := 1 }

/-! ## Backend `GET /api/openrice/search/:name` -/

/-- Outcome of the OpenRice search handler: HTTP status, envelope, and the
number of calls forwarded to the scraping (FastAPI) backend. `α` abstracts
the scraped payload, which this handler only passes through. -/
structure EnrichOutcome (α : Type) where
  status : Nat
  success : Bool
  error : Option String
  data : Option α
  backendCalls : Nat

/-- The `/search/:name` handler. `name` is the already-decoded path
parameter; `backend` is what `fetchFromFastAPI` would return for it (`none`
models every failure path of that helper, which resolves to `null`). -/
def openriceSearchHandler {α : Type} (name : String) (backend : Option α) :
    EnrichOutcome α :=
  if name = "" ∨ jsTrim name = "" then
    { status := 400, success := false
      error := some "Restaurant name is required"
      data := none, backendCalls := 0 }
  else
    match backend with
    | none =>
      { status := 500, success := false
        error := some "Failed to fetch OpenRice data. Make sure FastAPI is running."
        data := none, backendCalls := 1 }
    | some d =>
      { status := 200, success := true
        error := none, data := some d, backendCalls := 1 }

/-! ## Helper lemmas -/

/-- Any value an association-list lookup returns satisfies a property that all
stored values satisfy. -/
theorem lookup_sat {β : Type} (P : β → Prop) (c : String) :
    ∀ (l : List (String × β)) (v : β),
      (∀ p ∈ l, P p.2) → l.lookup c = some v → P v := by
  intro l
  induction l with
  | nil => intro v _ h; simp [List.lookup] at h
  | cons p es ih =>
    intro v hall h
    obtain ⟨k, b⟩ := p
    rw [List.lookup] at h
    by_cases hk : c == k
    · simp [hk] at h
      exact h ▸ hall (k, b) (List.mem_cons_self _ _)
    · simp [hk] at h
      exact ih v (fun q hq => hall q (List.mem_cons_of_mem _ hq)) h

/-- Every score stored in the health-score table is positive and at most 100. -/
theorem health_table_bounds : ∀ p ∈ CUISINE_HEALTH_SCORES, 0 < p.2 ∧ p.2 ≤ 100 := by decide

/-- Folding `Nat.max` over a list bounded by `B`, from a seed bounded by `B`,
stays bounded by `B`. -/
theorem foldl_max_le {B : Nat} :
    ∀ (t : List Nat) (h : Nat), h ≤ B → (∀ x ∈ t, x ≤ B) → t.foldl Nat.max h ≤ B := by
  intro t
  induction t with
  | nil => intro h hh _; exact hh
  | cons a t ih =>
    intro h hh hall
    exact ih (Nat.max h a)
      (Nat.max_le.mpr ⟨hh, hall a (List.mem_cons_self _ _)⟩)
      (fun x hx => hall x (List.mem_cons_of_mem _ hx))

/-- The maximum-of-pool-or-50 computation is bounded by 100 whenever every
pool element is. -/
theorem maxPool_le (L : List Nat) (hL : ∀ x ∈ L, x ≤ 100) :
    (match L with | [] => 50 | h :: t => t.foldl Nat.max h) ≤ 100 := by
  match L with
  | [] => decide
  | h :: t =>
    exact foldl_max_le t h (hL h (List.mem_cons_self _ _))
      (fun x hx => hL x (List.mem_cons_of_mem _ hx))

/-- Every element of the truthiness-filtered score list comes from the table,
so it is at most 100. -/
theorem scores_mem_le (cuisines : List String) :
    ∀ v ∈ cuisines.filterMap (fun cuisine =>
        match CUISINE_HEALTH_SCORES.lookup cuisine with
        | some w => if w = 0 then none else some w
        | none => none), v ≤ 100 := by
  intro v hv
  obtain ⟨c, _, hc⟩ := List.mem_filterMap.mp hv
  revert hc
  cases hl : CUISINE_HEALTH_SCORES.lookup c with
  | none => intro hc; simp at hc
  | some w =>
    intro hc
    have hw := lookup_sat (fun x => 0 < x ∧ x ≤ 100) c CUISINE_HEALTH_SCORES w
      health_table_bounds hl
    by_cases h0 : w = 0
    · simp [h0] at hc
    · simp [h0] at hc
      exact hc ▸ hw.2

/-- The health score is bounded by 100 for every input. -/
theorem calculateHealthScore_le (cuisines categories : List String) :
    calculateHealthScore cuisines categories ≤ 100 := by
  simp only [calculateHealthScore]
  apply maxPool_le
  intro x hx
  split at hx
  · rcases List.mem_append.mp hx with h | h
    · exact scores_mem_le cuisines x h
    · simp at h; omega
  · exact scores_mem_le cuisines x hx

/-- Claim C2: for every category list and name, the classifier returns a
non-empty cuisine list (the single label "general" when no keyword matches
the search text) and a health score of at most 100 (the score is a natural
number, hence also at least 0: it lies in [0,100]). -/
theorem classify_nonempty_and_bounded :
    ∀ (categories : List String) (name : String),
      detectCuisines categories name ≠ [] ∧
      calculateHealthScore (detectCuisines categories name) categories ≤ 100 ∧
      ((∀ p ∈ CUISINE_KEYWORDS, ∀ keyword ∈ p.2,
          strIncludes (searchTextOf categories name) keyword = false) →
        detectCuisines categories name = ["general"]) := by
  intro categories name
  refine ⟨?_, calculateHealthScore_le _ _, ?_⟩
  · simp only [detectCuisines]
    split
    · next h => exact List.length_pos.mp h
    · simp
  · intro hnone
    simp only [detectCuisines]
    have hdet : (CUISINE_KEYWORDS.filterMap fun p =>
        if p.2.any (fun keyword => strIncludes (searchTextOf categories name) keyword)
        then some p.1 else none) = [] := by
      rw [List.filterMap_eq_nil_iff]
      intro p hp
      have : p.2.any (fun keyword => strIncludes (searchTextOf categories name) keyword) = false := by
        rw [List.any_eq_false]
        intro k hk
        simp [hnone p hp k hk]
      simp [this]
    rw [hdet]
    simp

/-- Claim C2 witness: a concrete no-keyword input. -/
theorem classify_nonempty_and_bounded_witness :
    detectCuisines [] "q" ≠ [] ∧
    calculateHealthScore (detectCuisines [] "q") [] ≤ 100 ∧
    detectCuisines [] "q" = ["general"] := by
  have h := classify_nonempty_and_bounded [] "q"
  exact ⟨h.1, h.2.1, h.2.2 (by decide)⟩

/-- Claim C3: the implemented health score coincides with the specification's
candidate-pool description for every input. -/
theorem calculateHealthScore_eq_spec :
    ∀ (cuisines categories : List String),
      calculateHealthScore cuisines categories = specHealthScore cuisines categories := by
  intro cuisines categories
  have hf : (fun cuisine =>
      match CUISINE_HEALTH_SCORES.lookup cuisine with
      | some w => if w = 0 then none else some w
      | none => none) = (fun cuisine => CUISINE_HEALTH_SCORES.lookup cuisine) := by
    funext c
    cases hl : CUISINE_HEALTH_SCORES.lookup c with
    | none => rfl
    | some w =>
      have hw := lookup_sat (fun x => 0 < x ∧ x ≤ 100) c CUISINE_HEALTH_SCORES w
        health_table_bounds hl
      simp [Nat.pos_iff_ne_zero.mp hw.1]
  simp only [calculateHealthScore, specHealthScore, hf]

/-- The distance field of a processed restaurant is the sort key of its
feature. -/
theorem processRestaurant_distance (f : Feature) :
    (processRestaurant f).distance_meters = distKey f := rfl

/-- Stability of the distance sort, stated as the specification's tie rule:
for every distance value, the features carrying that distance appear in the
sorted list exactly as they appear in the source list. -/
theorem sortByDistance_stable (fs : List Feature) (v : Int) :
    (sortByDistance fs).filter (fun f => distKey f == v) =
      fs.filter (fun f => distKey f == v) := by
  set p : Feature → Bool := fun f => distKey f == v with hp
  have hpw : (fs.filter p).Pairwise featureLE := by
    apply List.pairwise_of_forall_mem_list
    intro a ha b hb
    have hav : distKey a = v := by simpa [hp] using (List.mem_filter.mp ha).2
    have hbv : distKey b = v := by simpa [hp] using (List.mem_filter.mp hb).2
    show distKey a ≤ distKey b
    omega
  have h1 : List.Sublist (fs.filter p) (sortByDistance fs) :=
    List.sublist_insertionSort hpw (List.filter_sublist fs)
  have h2 : List.Sublist (fs.filter p) ((sortByDistance fs).filter p) := by
    have := h1.filter p
    rwa [List.filter_eq_self.mpr (fun a ha => (List.mem_filter.mp ha).2)] at this
  have h3 : ((sortByDistance fs).filter p).length = (fs.filter p).length :=
    ((List.perm_insertionSort featureLE fs).filter p).length_eq
  exact (h2.eq_of_length h3.symm).symm

/-- The two features of the end-to-end scenario: provider order is the 500m
restaurant first, then the 150m one. -/
def farFeature : Feature :=
  { properties := { name := some "Far Cafe", distance := some 500 } }

def nearFeature : Feature :=
  { properties := { name := some "Near Cafe", distance := some 150 } }

def exampleResp : ProviderResponse :=
  { ok := true, status := 200, features := some [farFeature, nearFeature] }

/-- Claim C4: every search result lists restaurants by non-decreasing
provider distance; in a successful result the restaurants at any given
distance are exactly the provider's features at that distance, processed in
provider order (stable ties); and the concrete 500m/150m provider response
comes back ordered (150m item, 500m item). -/
theorem search_results_sorted_stable :
    (∀ (lat lon radius limit : Int) (filt now : String) (resp : ProviderResponse),
        List.Sorted (· ≤ ·)
          ((searchRestaurants lat lon radius limit filt now resp).result.restaurants.map
            (fun r => r.distance_meters))) ∧
    (∀ (lat lon radius limit : Int) (filt now : String) (resp : ProviderResponse) (v : Int),
        resp.ok = true →
        (searchRestaurants lat lon radius limit filt now resp).result.restaurants.filter
            (fun r => r.distance_meters == v) =
          ((resp.features.getD []).filter (fun f => distKey f == v)).map processRestaurant) ∧
    ((searchRestaurants 22 114 2000 30 "all" "" exampleResp).result.restaurants.map
        (fun r => (r.name, r.distance_meters))) =
      [("Near Cafe", 150), ("Far Cafe", 500)] := by
  refine ⟨?_, ?_, by decide⟩
  case refine_2 =>
    intro lat lon radius limit filt now resp v hok
    have hcomp : ((fun r => r.distance_meters == v) ∘ processRestaurant) =
        (fun f => distKey f == v) := by
      funext f
      simp [Function.comp, processRestaurant_distance]
    simp only [searchRestaurants, hok, if_true, List.filter_map, hcomp,
      sortByDistance_stable]
  intro lat lon radius limit filt now resp
  by_cases h : resp.ok
  · have hs : (sortByDistance (resp.features.getD [])).Pairwise featureLE :=
      List.sorted_insertionSort featureLE _
    have hmap :
        ((sortByDistance (resp.features.getD [])).map
            (fun fe => (processRestaurant fe).distance_meters)).Pairwise (· ≤ ·) := by
      refine List.Pairwise.map _ ?_ hs
      intro a b hab
      simpa [processRestaurant_distance] using hab
    simpa [searchRestaurants, h, List.map_map] using hmap
  · simp [searchRestaurants, h, List.Sorted]

/-- Claim C4 witness: ties/stability equality instantiated at the concrete
two-feature provider response and distance 150. -/
theorem search_results_sorted_stable_witness :
    (searchRestaurants 22 114 2000 30 "all" "" exampleResp).result.restaurants.filter
        (fun r => r.distance_meters == 150) =
      ((exampleResp.features.getD []).filter (fun f => distKey f == 150)).map
        processRestaurant :=
  search_results_sorted_stable.2.1 22 114 2000 30 "all" "" exampleResp 150 rfl

/-- Claim C5: the limit sent to the provider is `min(limit, 50)`, hence at
most 50; if the provider honours the sent limit, a search returns at most 50
restaurants. -/
theorem search_limit_clamped :
    ∀ (lat lon radius limit : Int) (filt now : String) (resp : ProviderResponse),
      (searchRestaurants lat lon radius limit filt now resp).request.limit = min limit 50 ∧
      (searchRestaurants lat lon radius limit filt now resp).request.limit ≤ 50 ∧
      (((resp.features.getD []).length : Int) ≤ min limit 50 →
        (searchRestaurants lat lon radius limit filt now resp).result.restaurants.length ≤ 50) := by
  intro lat lon radius limit filt now resp
  by_cases h : resp.ok
  · refine ⟨by simp [searchRestaurants, h], by simp [searchRestaurants, h], ?_⟩
    intro hlen
    simp only [searchRestaurants, h, if_pos, List.length_map, sortByDistance,
      List.length_insertionSort]
    omega
  · exact ⟨by simp [searchRestaurants, h], by simp [searchRestaurants, h],
      fun _ => by simp [searchRestaurants, h]⟩

def clampResp : ProviderResponse :=
  { ok := true, status := 200, features := some [{ properties := { distance := some 320 } }] }

/-- Claim C5 witness: a request with limit 1000 against a provider honouring
the clamped limit returns at most 50 restaurants. -/
theorem search_limit_clamped_witness :
    (searchRestaurants 22 114 2000 1000 "all" "" clampResp).result.restaurants.length ≤ 50 :=
  (search_limit_clamped 22 114 2000 1000 "all" "" clampResp).2.2 (by decide)

/-- Claim C6: the provider category token is the fixed-table entry for the
filter, defaulting to "catering.restaurant" for filters outside the table;
"chinese" maps to "catering.restaurant.chinese", and the search request uses
exactly this token. -/
theorem search_category_token :
    (∀ filt, categoryFor filt =
        match CUISINE_CATEGORIES.lookup filt with
        | some token => token
        | none => "catering.restaurant") ∧
    categoryFor "chinese" = "catering.restaurant.chinese" ∧
    ∀ (lat lon radius limit : Int) (filt now : String) (resp : ProviderResponse),
      (searchRestaurants lat lon radius limit filt now resp).request.categories =
        categoryFor filt := by
  refine ⟨?_, by decide, ?_⟩
  · intro filt
    cases h : CUISINE_CATEGORIES.lookup filt with
    | none => simp [categoryFor, h]; decide
    | some token => simp [categoryFor, h]
  · intro lat lon radius limit filt now resp
    by_cases h : resp.ok
    · simp [searchRestaurants, h]
    · simp [searchRestaurants, h]

/-- Claim C7: a non-success provider status yields a failure result naming
the status; exactly one outbound call is made (no retry) and nothing is
thrown to the caller (the embedding is a total function returning this
envelope). -/
theorem search_provider_error_envelope :
    ∀ (lat lon radius limit : Int) (filt now : String) (resp : ProviderResponse),
      resp.ok = false →
      (searchRestaurants lat lon radius limit filt now resp).result.success = false ∧
      (searchRestaurants lat lon radius limit filt now resp).result.error_message =
        some ("Geoapify API error: " ++ toString resp.status) ∧
      (searchRestaurants lat lon radius limit filt now resp).calls = 1 := by
  intro lat lon radius limit filt now resp h
  refine ⟨by simp [searchRestaurants, h], by simp [searchRestaurants, h], ?_⟩
  by_cases hok : resp.ok
  · rw [h] at hok; cases hok
  · simp [searchRestaurants, hok]

/-- Claim C7 witness: a concrete 503 provider response. -/
theorem search_provider_error_envelope_witness :
    (searchRestaurants 22 114 2000 30 "all" "" { ok := false, status := 503 }).result.success
        = false ∧
    (searchRestaurants 22 114 2000 30 "all" "" { ok := false, status := 503 }).result.error_message
        = some "Geoapify API error: 503" ∧
    (searchRestaurants 22 114 2000 30 "all" "" { ok := false, status := 503 }).calls = 1 :=
  search_provider_error_envelope 22 114 2000 30 "all" "" { ok := false, status := 503 } rfl

/-- Claim C10: every search result (success or failure) reports
`total_results` equal to the length of its restaurant list and echoes the
requested coordinates and radius. -/
theorem search_result_envelope_invariants :
    ∀ (lat lon radius limit : Int) (filt now : String) (resp : ProviderResponse),
      (searchRestaurants lat lon radius limit filt now resp).result.total_results =
        (searchRestaurants lat lon radius limit filt now resp).result.restaurants.length ∧
      (searchRestaurants lat lon radius limit filt now resp).result.user_location =
        (lat, lon) ∧
      (searchRestaurants lat lon radius limit filt now resp).result.search_radius_meters =
        radius := by
  intro lat lon radius limit filt now resp
  by_cases h : resp.ok
  · exact ⟨by simp [searchRestaurants, h], by simp [searchRestaurants, h],
      by simp [searchRestaurants, h]⟩
  · exact ⟨by simp [searchRestaurants, h], by simp [searchRestaurants, h],
      by simp [searchRestaurants, h]⟩

def emptyOkResp : ProviderResponse :=
  { ok := true, status := 200, features := some [] }

/-- Claim C1 counterexample: at latitude 91 and longitude 200 — both outside
the valid ranges — the client-side `searchRestaurants` still issues its one
outbound provider call and, when the provider answers OK, returns
`success := true`: it performs no coordinate validation at all. -/
theorem searchRestaurants_no_validation_cex :
    (searchRestaurants 91 200 2000 30 "all" "" emptyOkResp).calls = 1 ∧
    (searchRestaurants 91 200 2000 30 "all" "" emptyOkResp).result.success = true := by
  decide

/-- Claim C1 amended: the coordinate validation lives in the backend
gateway's search endpoint, not in the client-side `searchRestaurants`. For a
body whose latitude is outside [-90,90] or whose longitude is outside
[-180,180], the gateway responds 400 with `success:false`, one of the two
human-readable range messages, and makes no outbound provider call. -/
theorem gateway_rejects_out_of_range_coordinates :
    ∀ (body : GatewayBody) (now : String) (resp : ProviderResponse) (lat lon : Int),
      body.latitude = some lat → body.longitude = some lon →
      (lat < -90 ∨ lat > 90 ∨ lon < -180 ∨ lon > 180) →
      (restaurantsSearchHandler body now resp).status = 400 ∧
      (restaurantsSearchHandler body now resp).success = false ∧
      ((restaurantsSearchHandler body now resp).error_message =
          some "Invalid latitude: must be between -90 and 90" ∨
        (restaurantsSearchHandler body now resp).error_message =
          some "Invalid longitude: must be between -180 and 180") ∧
      (restaurantsSearchHandler body now resp).calls = 0 := by
  intro body now resp lat lon hlat hlon hrange
  by_cases h1 : lat < -90 ∨ lat > 90
  · simp [restaurantsSearchHandler, hlat, hlon, h1]
  · have h2 : lon < -180 ∨ lon > 180 := by omega
    simp [restaurantsSearchHandler, hlat, hlon, h1, h2]

/-- Claim C1 amended witness: latitude 91 is rejected by the gateway with no
provider call. -/
theorem gateway_rejects_out_of_range_coordinates_witness :
    (restaurantsSearchHandler { latitude := some 91, longitude := some 0 } ""
        { ok := true, status := 200 }).status = 400 ∧
    (restaurantsSearchHandler { latitude := some 91, longitude := some 0 } ""
        { ok := true, status := 200 }).success = false ∧
    ((restaurantsSearchHandler { latitude := some 91, longitude := some 0 } ""
          { ok := true, status := 200 }).error_message =
        some "Invalid latitude: must be between -90 and 90" ∨
      (restaurantsSearchHandler { latitude := some 91, longitude := some 0 } ""
          { ok := true, status := 200 }).error_message =
        some "Invalid longitude: must be between -180 and 180") ∧
    (restaurantsSearchHandler { latitude := some 91, longitude := some 0 } ""
        { ok := true, status := 200 }).calls = 0 :=
  gateway_rejects_out_of_range_coordinates
    { latitude := some 91, longitude := some 0 } "" { ok := true, status := 200 }
    91 0 rfl rfl (by decide)

def negDistanceFeature : Feature :=
  { properties := { distance := some (-7) } }

/-- Claim C8 counterexample: a provider feature reporting distance -7 is
passed through unchanged, so the produced record's `distance_meters` is
negative — the non-negativity claim fails for arbitrary distance values. -/
theorem processRestaurant_negative_distance_cex :
    (processRestaurant negDistanceFeature).distance_meters = -7 ∧
    (processRestaurant negDistanceFeature).distance_meters < 0 := by
  decide

/-- Claim C8 amended: `distance_meters` is non-negative for every feature
whose provider-reported distance is missing or non-negative (a missing
distance becomes 0); a negative provider distance is passed through. -/
theorem processRestaurant_distance_nonneg :
    ∀ (f : Feature), (∀ d, f.properties.distance = some d → 0 ≤ d) →
      0 ≤ (processRestaurant f).distance_meters := by
  intro f h
  rw [processRestaurant_distance]
  unfold distKey
  cases hd : f.properties.distance with
  | none => simp [orND]
  | some d =>
    have := h d hd
    by_cases h0 : d = 0
    · simp [orND, h0]
    · simp [orND, h0]
      omega

def noDistanceFeature : Feature := {}

/-- Claim C8 amended witness: a feature without a distance yields
`distance_meters = 0 ≥ 0`. -/
theorem processRestaurant_distance_nonneg_witness :
    0 ≤ (processRestaurant noDistanceFeature).distance_meters :=
  processRestaurant_distance_nonneg noDistanceFeature
    (fun d h => by simp [noDistanceFeature] at h)

/-- Claim C9: an enrichment lookup whose decoded name is empty or
whitespace-only is answered 400 with `success:false` and the descriptive
message, and no call reaches the scraping backend. -/
theorem openrice_empty_name_rejected :
    ∀ {α : Type} (name : String) (backend : Option α),
      jsTrim name = "" →
      (openriceSearchHandler name backend).status = 400 ∧
      (openriceSearchHandler name backend).success = false ∧
      (openriceSearchHandler name backend).error = some "Restaurant name is required" ∧
      (openriceSearchHandler name backend).backendCalls = 0 := by
  intro α name backend h
  unfold openriceSearchHandler
  rw [if_pos (Or.inr h)]
  exact ⟨rfl, rfl, rfl, rfl⟩

/-- Claim C9 witness: a whitespace-only name. -/
theorem openrice_empty_name_rejected_witness :
    (openriceSearchHandler "   " (none : Option Nat)).status = 400 ∧
    (openriceSearchHandler "   " (none : Option Nat)).success = false ∧
    (openriceSearchHandler "   " (none : Option Nat)).error =
      some "Restaurant name is required" ∧
    (openriceSearchHandler "   " (none : Option Nat)).backendCalls = 0 :=
  openrice_empty_name_rejected "   " (none : Option Nat) (by decide)
